import Mathlib

/-!
Shallow embedding of the dependency-parsing application (`0107.py`, `demo.py`,
`test_dependency_parser.py`).  The program is a glue layer: it calls the
external spaCy / transformers models, maps their token objects into record
dicts, persists those records in a SQLite database with two tables, and builds
a node/edge JSON structure for visualization.  External model calls are
modelled as opaque function parameters; the SQLite connection is modelled with
an explicit uncommitted/committed state and a log of commit units (the Python
`sqlite3` module buffers DML statements in an implicit transaction that is
flushed by `conn.commit()`).
-/

namespace DepParse

/-- A token as exposed by the external spaCy library: the attributes the
program reads (`text`, `pos_`, `dep_`, `head.text`, `head.pos_`, `lemma_`,
`is_punct`, `is_space`).  The head's attributes are flattened into the token,
since the code only ever reads `token.head.text` and `token.head.pos_`. -/
structure SpacyToken where
  text : String
  pos : String
  dep : String
  headText : String
  headPos : String
  lemma_ : String
  isPunct : Bool
  isSpace : Bool
deriving Repr, DecidableEq

/-- A spaCy `Doc`: its tokens, sentence spans (`doc.sents`, as text) and named
entities (`doc.ents`, as (text, label) pairs), exactly the parts the program
reads. -/
structure SpacyDoc where
  tokens : List SpacyToken
  sents : List String
  ents : List (String × String)
deriving Repr, DecidableEq

/-- The per-token record dict built in the loop of
`DependencyParser.parse_with_spacy` (0107.py lines 111-121): keys
`token, pos, dep, head, head_pos, lemma, is_punct, is_space`. -/
structure DepRecord where
  token : String
  pos : String
  dep : String
  head : String
  head_pos : String
  lemma_ : String
  is_punct : Bool
  is_space : Bool
deriving Repr, DecidableEq

/-- The dict returned by `parse_with_spacy` on success (0107.py lines
123-128). -/
structure SpacyResult where
  model : String
  dependencies : List DepRecord
  sentences : List String
  entities : List (String × String)
deriving Repr, DecidableEq

/-- One entry of the list returned by the transformers token-classification
pipeline; the program only reads its `score` field (modelled as a rational,
standing for the float). -/
structure TransEntity where
  entity_group : String
  score : ℚ
  word : String
deriving Repr, DecidableEq

/-- The dict returned by `parse_with_transformers` on success (0107.py lines
137-141). -/
structure TransResult where
  model : String
  results : List TransEntity
  confidence : ℚ
deriving Repr, DecidableEq

/-- A dict-returning parse method either returns a result dict or an
`{"error": msg}` dict. -/
inductive ParseOutput (α : Type) where
  | error (msg : String)
  | ok (r : α)
deriving Repr, DecidableEq

/-- The `DependencyParser` object's model state: `self.nlp` (None when the
spaCy model failed to load, otherwise the loaded model, modelled as a total
text → Doc function) and the pipeline attribute (None when transformers is
unavailable or loading failed, otherwise the pipeline, modelled as a fallible
call: `Except.error e` stands for the pipeline raising exception `e`). -/
structure DependencyParser where
  nlp : Option (String → SpacyDoc)
  transformer_pipeline : Option (String → Except String (List TransEntity))

/-- The record dict built from one spaCy token (0107.py lines 112-121): every
field is copied verbatim from the library token's attribute. -/
def tokenRecord (t : SpacyToken) : DepRecord :=
  { token := t.text
    pos := t.pos
    dep := t.dep
    head := t.headText
    head_pos := t.headPos
    lemma_ := t.lemma_
    is_punct := t.isPunct
    is_space := t.isSpace }

/-- Embeds `DependencyParser.parse_with_spacy` (0107.py lines 103-128). -/
def parse_with_spacy (p : DependencyParser) (text : String) :
    ParseOutput SpacyResult :=
  match p.nlp with
  | none => .error "spaCy model not loaded"
  | some nlp =>
      let doc := nlp text
      .ok { model := "spaCy"
            dependencies := doc.tokens.map tokenRecord
            sentences := doc.sents
            entities := doc.ents }

/-- Embeds `DependencyParser.parse_with_transformers` (0107.py lines 130-143):
returns the error dict when the pipeline is not loaded, catches any exception
of the pipeline call, and otherwise returns the results with
`confidence = np.mean(scores) if results else 0`. -/
def parse_with_transformers (p : DependencyParser) (text : String) :
    ParseOutput TransResult :=
  match p.transformer_pipeline with
  | none => .error "Transformer model not loaded"
  | some tp =>
      match tp text with
      | .error e => .error ("Transformer parsing failed: " ++ e)
      | .ok results =>
          .ok { model := "Transformers"
                results := results
                confidence :=
                  if results.isEmpty then 0
                  else (results.map (·.score)).sum / results.length }

/-! ### The SQLite database -/

/-- A row of the `sentences` table (columns the program writes/reads: the
AUTOINCREMENT `id` and `text`; `language` and `created_at` take their column
defaults and are never written by the program). -/
structure SentenceRow where
  id : Nat
  text : String
deriving Repr, DecidableEq

/-- A row of the `dependencies` table (0107.py lines 74-87).  `confidence` is
a nullable REAL column; `none` is NULL. -/
structure DependencyRow where
  id : Nat
  sentence_id : Nat
  token_text : String
  token_pos : String
  dependency_label : String
  head_text : String
  head_pos : String
  model_type : String
  confidence : Option ℚ
deriving Repr, DecidableEq

/-- Database contents: the set of tables (by name, in creation order) and the
rows of the two tables the program uses. -/
structure DB where
  tables : List String
  sentences : List SentenceRow
  dependencies : List DependencyRow
deriving Repr, DecidableEq

/-- The SQL statements the program executes through `cursor.execute` that
write the database.  The program never deletes or updates rows and never
drops or alters a table. -/
inductive Stmt where
  | createTableIfNotExists (name : String)
  | insertSentence (orIgnore : Bool) (text : String)
  | insertDependency (sentence_id : Nat)
      (token_text token_pos dependency_label head_text head_pos
       model_type : String)
deriving Repr, DecidableEq

/-- Effect of one statement on the database contents.  AUTOINCREMENT ids are
1-based and rows are never deleted, so the next id is `length + 1`.
`INSERT OR IGNORE INTO sentences (text)` behaves as a plain insert because the
`sentences` table declares no uniqueness constraint on `text`, so the IGNORE
branch can never trigger. -/
def execStmt (db : DB) : Stmt → DB
  | .createTableIfNotExists name =>
      if name ∈ db.tables then db else { db with tables := db.tables ++ [name] }
  | .insertSentence _ t =>
      { db with sentences := db.sentences ++ [⟨db.sentences.length + 1, t⟩] }
  | .insertDependency sid tok pos dep hd hdpos model =>
      { db with dependencies := db.dependencies ++
          [⟨db.dependencies.length + 1, sid, tok, pos, dep, hd, hdpos, model,
            none⟩] }

/-- The `sqlite3` connection.  With the module's default isolation level, DML
statements are buffered in an implicit transaction: `db` is the state this
connection sees (including uncommitted statements), `committed` is the durable
state, `pending` are the statements executed since the last commit, and `log`
records each committed unit (the statements made durable together by one
`conn.commit()`). -/
structure Conn where
  db : DB
  committed : DB
  pending : List Stmt
  log : List (List Stmt)
deriving Repr, DecidableEq

/-- Embeds `cursor.execute(stmt)` on the connection: applies the statement to the
connection's view and buffers it in the implicit transaction. -/
def connExec (c : Conn) (s : Stmt) : Conn :=
  { c with db := execStmt c.db s, pending := c.pending ++ [s] }

/-- Embeds `conn.commit()`: makes the buffered statements durable as one atomic
unit. -/
def connCommit (c : Conn) : Conn :=
  { c with committed := c.db, log := c.log ++ [c.pending], pending := [] }

/-- A connection to a freshly created `dependency_parsing.db` file: no tables,
no rows, nothing pending, nothing committed. -/
def freshConn : Conn :=
  { db := ⟨[], [], []⟩, committed := ⟨[], [], []⟩, pending := [], log := [] }

/-- The sample sentences inserted by `init_database` (0107.py lines 90-96). -/
def sample_sentences : List String :=
  [ "The quick brown fox jumps over the lazy dog.",
    "Natural language processing is a fascinating field of artificial intelligence.",
    "Machine learning models can understand complex linguistic patterns.",
    "Dependency parsing reveals the grammatical structure of sentences.",
    "The beautiful sunset painted the sky with vibrant colors." ]

/-- Embeds `DependencyParser.init_database` (0107.py lines 59-101): creates the two
tables if absent, inserts the sample sentences, and commits. -/
def init_database (c : Conn) : Conn :=
  let c1 := connExec c (.createTableIfNotExists "sentences")
  let c2 := connExec c1 (.createTableIfNotExists "dependencies")
  let c3 := sample_sentences.foldl
    (fun c s => connExec c (.insertSentence true s)) c2
  connCommit c3

/-- The `results` dict passed to `save_to_database`: the code reads
`results['model']` and, when present, the `results['dependencies']` list
(`none` models a dict without a `'dependencies'` key, as for transformer
results). -/
structure SaveInput where
  model : String
  dependencies : Option (List DepRecord)
deriving Repr, DecidableEq

/-- The INSERT statement issued for one entry of `results['dependencies']`
(0107.py lines 156-161): the entry's `token`, `pos`, `dep`, `head`,
`head_pos` fields, with the sentence id and `results['model']`. -/
def depStmt (sentence_id : Nat) (model : String) (d : DepRecord) : Stmt :=
  .insertDependency sentence_id d.token d.pos d.dep d.head d.head_pos model

/-- Embeds `DependencyParser.save_to_database` (0107.py lines 145-164): inserts the
sentence row, takes `cursor.lastrowid`, inserts one dependency row per entry
of `results['dependencies']` when that key is present, commits once at the
end, and returns the sentence id. -/
def save_to_database (c : Conn) (text : String) (results : SaveInput) :
    Conn × Nat :=
  let c1 := connExec c (.insertSentence false text)
  let sentence_id := c1.db.sentences.length
  let c2 :=
    match results.dependencies with
    | none => c1
    | some deps => deps.foldl
        (fun c d => connExec c (depStmt sentence_id results.model d)) c1
  (connCommit c2, sentence_id)

/-! ### Statistics -/

/-- The four SQL query texts issued by `get_statistics` (0107.py lines
166-196), in order; they do not depend on any input. -/
def statisticsQueries : List String :=
  [ "SELECT COUNT(*) FROM sentences",
    "SELECT COUNT(*) FROM dependencies",
    "SELECT dependency_label, COUNT(*) as count FROM dependencies GROUP BY dependency_label ORDER BY count DESC LIMIT 10",
    "SELECT token_pos, COUNT(*) as count FROM dependencies GROUP BY token_pos ORDER BY count DESC LIMIT 10" ]

/-- Ordering used by `ORDER BY count DESC`: descending on the count. -/
def countDesc (a b : String × Nat) : Prop := b.2 ≤ a.2

instance : DecidableRel countDesc := fun _ b => Nat.decLe b.2 _

/-- Semantics of `SELECT col, COUNT(*) GROUP BY col ORDER BY count DESC
LIMIT 10` over the multiset of values `vals` of the grouped column: one
(value, count) pair per distinct value, sorted by descending count, first
10 rows.  SQLite fixes no order among equal counts; this model picks one. -/
def groupCountDesc (vals : List String) : List (String × Nat) :=
  (List.insertionSort countDesc
    (vals.dedup.map (fun v => (v, vals.count v)))).take 10

/-- The dict returned by `DependencyParser.get_statistics` (0107.py lines
198-203). -/
structure Stats where
  sentence_count : Nat
  dependency_count : Nat
  common_dependencies : List (String × Nat)
  common_pos_tags : List (String × Nat)
deriving Repr, DecidableEq

/-- Embeds `DependencyParser.get_statistics` (0107.py lines 166-203): read-only; the
second component is the list of SQL query texts it issued. -/
def get_statistics (db : DB) : Stats × List String :=
  ({ sentence_count := db.sentences.length
     dependency_count := db.dependencies.length
     common_dependencies :=
       groupCountDesc (db.dependencies.map (·.dependency_label))
     common_pos_tags :=
       groupCountDesc (db.dependencies.map (·.token_pos)) },
   statisticsQueries)

/-! ### Visualization -/

/-- The fields of a dependency record that `create_visualization` reads
(`token`, `pos`, `dep`, `head`); the tests call it with dicts carrying exactly
these keys. -/
structure VisDep where
  token : String
  pos : String
  dep : String
  head : String
deriving Repr, DecidableEq

/-- A node dict built by `create_visualization` (0107.py lines 215-220). -/
structure VisNode where
  id : Nat
  label : String
  pos : String
  dep : String
deriving Repr, DecidableEq

/-- An edge dict built by `create_visualization` (0107.py lines 226-230);
`fromIdx`/`toIdx` embed the `'from'`/`'to'` keys. -/
structure VisEdge where
  fromIdx : Nat
  toIdx : Nat
  label : String
deriving Repr, DecidableEq

/-- The return value of `create_visualization`: either the literal message
string, or `json.dumps({'nodes': nodes, 'edges': edges})` represented by its
structure. -/
inductive VisOutput where
  | message (s : String)
  | graph (nodes : List VisNode) (edges : List VisEdge)
deriving Repr, DecidableEq

/-- The node built for the record at index `i` (0107.py lines 215-220). -/
def visNode (i : Nat) (d : VisDep) : VisNode :=
  { id := i, label := d.token ++ "\n(" ++ d.pos ++ ")", pos := d.pos,
    dep := d.dep }

/-- The optional edge built for the record at index `i`: Python's
`next((j for j, d in enumerate(dependencies) if d['token'] == dep['head']),
None)` is the first index whose token equals the record's head (0107.py lines
222-230). -/
def visEdge (dependencies : List VisDep) (i : Nat) (d : VisDep) :
    Option VisEdge :=
  match dependencies.findIdx? (fun d2 => d2.token == d.head) with
  | none => none
  | some j => some { fromIdx := j, toIdx := i, label := d.dep }

/-- Embeds `create_visualization` (0107.py lines 205-232). -/
def create_visualization (dependencies : List VisDep) : VisOutput :=
  if dependencies.isEmpty then .message "No dependencies to visualize"
  else
    .graph (dependencies.enum.map (fun p => visNode p.1 p.2))
      (dependencies.enum.filterMap (fun p => visEdge dependencies p.1 p.2))

/-! ### Helper lemmas -/

/-- The dependency rows produced by inserting the entries of `ds` one after
another into a table that already holds `base` rows. -/
def depRows (base sentence_id : Nat) (model : String) :
    List DepRecord → List DependencyRow
  | [] => []
  | d :: ds =>
      ⟨base + 1, sentence_id, d.token, d.pos, d.dep, d.head, d.head_pos,
        model, none⟩ :: depRows (base + 1) sentence_id model ds

lemma depRows_length (base sid : Nat) (model : String) (ds : List DepRecord) :
    (depRows base sid model ds).length = ds.length := by
  induction ds generalizing base with
  | nil => rfl
  | cons d ds ih => simp [depRows, ih]

lemma depRows_getElem? (base sid : Nat) (model : String) (ds : List DepRecord)
    (k : Nat) (hk : k < ds.length) :
    (depRows base sid model ds)[k]? =
      some ⟨base + k + 1, sid, ds[k].token, ds[k].pos, ds[k].dep, ds[k].head,
        ds[k].head_pos, model, none⟩ := by
  induction ds generalizing base k with
  | nil => simp at hk
  | cons d ds ih =>
      cases k with
      | zero => simp [depRows]
      | succ k =>
          have hk' : k < ds.length := by simpa using hk
          have h1 : base + 1 + k + 1 = base + (k + 1) + 1 := by omega
          simpa [depRows, h1] using ih (base + 1) k hk'

lemma depRows_confidence (base sid : Nat) (model : String)
    (ds : List DepRecord) (row : DependencyRow)
    (h : row ∈ depRows base sid model ds) : row.confidence = none := by
  induction ds generalizing base with
  | nil => simp [depRows] at h
  | cons d ds ih =>
      rcases List.mem_cons.mp h with h1 | h2
      · subst h1; rfl
      · exact ih _ h2

lemma depFold (sid : Nat) (model : String) (ds : List DepRecord) (c : Conn) :
    ds.foldl (fun c d => connExec c (depStmt sid model d)) c =
      { db := { c.db with dependencies :=
                  c.db.dependencies ++
                    depRows c.db.dependencies.length sid model ds }
        committed := c.committed
        pending := c.pending ++ ds.map (depStmt sid model)
        log := c.log } := by
  induction ds generalizing c with
  | nil => simp [depRows]
  | cons d ds ih =>
      rw [List.foldl_cons, ih]
      simp [connExec, execStmt, depStmt, depRows, List.append_assoc]

lemma save_some (c : Conn) (text model : String) (ds : List DepRecord) :
    save_to_database c text ⟨model, some ds⟩ =
      (⟨⟨c.db.tables,
          c.db.sentences ++ [⟨c.db.sentences.length + 1, text⟩],
          c.db.dependencies ++ depRows c.db.dependencies.length
            (c.db.sentences.length + 1) model ds⟩,
        ⟨c.db.tables,
          c.db.sentences ++ [⟨c.db.sentences.length + 1, text⟩],
          c.db.dependencies ++ depRows c.db.dependencies.length
            (c.db.sentences.length + 1) model ds⟩,
        [],
        c.log ++ [c.pending ++ Stmt.insertSentence false text ::
          ds.map (depStmt (c.db.sentences.length + 1) model)]⟩,
       c.db.sentences.length + 1) := by
  unfold save_to_database
  dsimp only
  rw [depFold]
  simp [connExec, connCommit, execStmt]

lemma save_none (c : Conn) (text : String) (r : SaveInput)
    (h : r.dependencies = none) :
    save_to_database c text r =
      (⟨⟨c.db.tables,
          c.db.sentences ++ [⟨c.db.sentences.length + 1, text⟩],
          c.db.dependencies⟩,
        ⟨c.db.tables,
          c.db.sentences ++ [⟨c.db.sentences.length + 1, text⟩],
          c.db.dependencies⟩,
        [],
        c.log ++ [c.pending ++ [Stmt.insertSentence false text]]⟩,
       c.db.sentences.length + 1) := by
  obtain ⟨m, d⟩ := r
  cases h
  unfold save_to_database
  dsimp only
  simp [connExec, connCommit, execStmt]

lemma foldl_insertSentence_tables (l : List String) (c : Conn) :
    (l.foldl (fun c s => connExec c (.insertSentence true s)) c).db.tables =
      c.db.tables := by
  induction l generalizing c with
  | nil => rfl
  | cons s l ih =>
      rw [List.foldl_cons, ih]
      rfl

/-! ### Example values used to instantiate theorems with hypotheses -/

/-- The connection as the program holds it right after `__init__`:
`init_database` run on a fresh `dependency_parsing.db`. -/
def exConn : Conn := init_database freshConn

/-- A sample per-token record. -/
def exRecord : DepRecord :=
  ⟨"cat", "NOUN", "nsubj", "sat", "VERB", "cat", false, false⟩

/-! ### Claim theorems -/

/-- C1: `save_to_database(text, results)` with a `'dependencies'` list inserts
exactly one new `sentences` row holding `text`, one `dependencies` row per
entry carrying that entry's token text, POS tag, dependency label, head text,
head POS and the results dict's model name with the new sentence id as
foreign key, and returns that new sentence id. -/
theorem save_to_database_inserts (c : Conn) (text model : String)
    (ds : List DepRecord) :
    (save_to_database c text ⟨model, some ds⟩).2 =
        c.db.sentences.length + 1 ∧
    (save_to_database c text ⟨model, some ds⟩).1.db.sentences =
        c.db.sentences ++ [⟨c.db.sentences.length + 1, text⟩] ∧
    (save_to_database c text ⟨model, some ds⟩).1.db.dependencies.length =
        c.db.dependencies.length + ds.length ∧
    (∀ k (hk : k < ds.length),
      (save_to_database c text
          ⟨model, some ds⟩).1.db.dependencies[c.db.dependencies.length + k]? =
        some ⟨c.db.dependencies.length + k + 1, c.db.sentences.length + 1,
          ds[k].token, ds[k].pos, ds[k].dep, ds[k].head, ds[k].head_pos,
          model, none⟩) ∧
    (save_to_database c text ⟨model, some ds⟩).1.committed =
      (save_to_database c text ⟨model, some ds⟩).1.db := by
  rw [save_some]
  refine ⟨rfl, rfl, by simp [depRows_length], ?_, rfl⟩
  intro k hk
  rw [List.getElem?_append_right (Nat.le_add_right _ _)]
  rw [Nat.add_sub_cancel_left]
  exact depRows_getElem? _ _ _ _ k hk

/-- Witness for C1 at a concrete call. -/
theorem save_to_database_inserts_witness :
    (save_to_database exConn "The cat sat." ⟨"spaCy", some [exRecord]⟩).1.db.dependencies[0]? =
      some ⟨1, 6, "cat", "NOUN", "nsubj", "sat", "VERB", "spaCy", none⟩ :=
  (save_to_database_inserts exConn "The cat sat." "spaCy"
    [exRecord]).2.2.2.1 0 (by decide)

/-- C3: `init_database` creates exactly the two tables `sentences` and
`dependencies` on a fresh database; on any database it creates no table other
than those two; and `save_to_database` never changes the set of tables. -/
theorem init_database_two_tables :
    (init_database freshConn).db.tables = ["sentences", "dependencies"] ∧
    (∀ c : Conn, ∀ t, t ∈ (init_database c).db.tables →
      t ∈ c.db.tables ∨ t = "sentences" ∨ t = "dependencies") ∧
    (∀ (c : Conn) (text : String) (r : SaveInput),
      (save_to_database c text r).1.db.tables = c.db.tables) := by
  refine ⟨by decide, ?_, ?_⟩
  · intro c t ht
    have htab : (init_database c).db.tables =
        (execStmt (execStmt c.db (.createTableIfNotExists "sentences"))
          (.createTableIfNotExists "dependencies")).tables := by
      show (sample_sentences.foldl (fun c s => connExec c (.insertSentence true s))
          (connExec (connExec c (.createTableIfNotExists "sentences"))
            (.createTableIfNotExists "dependencies"))).db.tables = _
      rw [foldl_insertSentence_tables]
      rfl
    rw [htab] at ht
    simp only [execStmt] at ht
    by_cases h1 : "sentences" ∈ c.db.tables <;>
      by_cases h2 : "dependencies" ∈ c.db.tables <;>
      simp [h1, h2] at ht <;> tauto
  · intro c text r
    obtain ⟨m, d⟩ := r
    cases d with
    | none => rw [save_none _ _ _ rfl]
    | some ds => rw [save_some]

/-- C4 counterexample: at a concrete call, the sentence-row INSERT and the
dependency-row INSERT issued by `save_to_database` land in the same committed
unit (the single `conn.commit()` flushes the implicit transaction holding
both), so they ARE committed together atomically. -/
theorem save_atomic_counterexample :
    Stmt.insertSentence false "The cat sat." ∈
      ((save_to_database exConn "The cat sat."
        ⟨"spaCy", some [exRecord]⟩).1.log.getLastD []) ∧
    depStmt 6 "spaCy" exRecord ∈
      ((save_to_database exConn "The cat sat."
        ⟨"spaCy", some [exRecord]⟩).1.log.getLastD []) := by
  decide

/-- C4 amended: the code contains no explicit transaction statements — each
`save_to_database` call just buffers its INSERTs and issues a single
`conn.commit()`, so (entering with nothing pending, as the program always
does) the call appends exactly one committed unit, which holds the sentence
INSERT together with all the dependency INSERTs. -/
theorem save_single_commit_unit (c : Conn) (text : String) (r : SaveInput)
    (h : c.pending = []) :
    (save_to_database c text r).1.log =
      c.log ++ [Stmt.insertSentence false text ::
        (match r.dependencies with
         | none => []
         | some ds => ds.map (depStmt (c.db.sentences.length + 1) r.model))] ∧
    (save_to_database c text r).1.pending = [] := by
  obtain ⟨m, d⟩ := r
  cases d with
  | none => rw [save_none _ _ _ rfl]; simp [h]
  | some ds => rw [save_some]; simp [h]

/-- Witness for C4's amended theorem at a concrete call. -/
theorem save_single_commit_unit_witness :
    (save_to_database exConn "The cat sat."
        ⟨"spaCy", some [exRecord]⟩).1.pending = [] :=
  (save_single_commit_unit exConn "The cat sat." ⟨"spaCy", some [exRecord]⟩
    (by decide)).2

/-- C9: a `save_to_database` call whose results dict has no `'dependencies'`
key still inserts exactly one `sentences` row and returns its id, adds no
`dependencies` row, and in general every `dependencies` row the function adds
has NULL `confidence`. -/
theorem save_without_dependencies (c : Conn) (text : String) (r : SaveInput)
    (h : r.dependencies = none) :
    (save_to_database c text r).1.db.sentences =
        c.db.sentences ++ [⟨c.db.sentences.length + 1, text⟩] ∧
    (save_to_database c text r).2 = c.db.sentences.length + 1 ∧
    (save_to_database c text r).1.db.dependencies = c.db.dependencies ∧
    ∀ (c' : Conn) (t' : String) (r' : SaveInput) (row : DependencyRow),
      row ∈ (save_to_database c' t' r').1.db.dependencies →
      row ∈ c'.db.dependencies ∨ row.confidence = none := by
  rw [save_none _ _ _ h]
  refine ⟨rfl, rfl, rfl, ?_⟩
  intro c' t' r' row hrow
  obtain ⟨m, d⟩ := r'
  cases d with
  | none =>
      rw [save_none _ _ _ rfl] at hrow
      exact Or.inl hrow
  | some ds =>
      rw [save_some] at hrow
      rcases List.mem_append.mp hrow with h1 | h2
      · exact Or.inl h1
      · exact Or.inr (depRows_confidence _ _ _ _ _ h2)

/-- Witness for C9 at a concrete call. -/
theorem save_without_dependencies_witness :
    (save_to_database exConn "Hello there."
        ⟨"Transformers", none⟩).1.db.dependencies = exConn.db.dependencies ∧
    (save_to_database exConn "Hello there." ⟨"Transformers", none⟩).2 = 6 :=
  ⟨(save_without_dependencies exConn "Hello there." ⟨"Transformers", none⟩
      rfl).2.2.1,
   (save_without_dependencies exConn "Hello there." ⟨"Transformers", none⟩
      rfl).2.1⟩

/-- A sample spaCy token for instantiating theorems. -/
def exToken : SpacyToken :=
  ⟨"fox", "NOUN", "nsubj", "jumps", "VERB", "fox", false, false⟩

/-- A sample loaded spaCy model. -/
def exNlp : String → SpacyDoc := fun _ => ⟨[exToken], ["The fox jumps."], []⟩

/-- A parser whose spaCy model loaded but whose transformer pipeline did
not. -/
def exParser : DependencyParser := ⟨some exNlp, none⟩

/-- C2: every per-token record returned by `parse_with_spacy` carries exactly
the fields `token, pos, dep, head, head_pos, lemma, is_punct, is_space`, each
copied verbatim from the corresponding spaCy token attribute (`text`, `pos_`,
`dep_`, `head.text`, `head.pos_`, `lemma_`, `is_punct`, `is_space`); the
result is fully determined by the library's output. -/
theorem parse_with_spacy_mirrors (p : DependencyParser)
    (f : String → SpacyDoc) (text : String) (h : p.nlp = some f) :
    parse_with_spacy p text =
      .ok ⟨"spaCy", (f text).tokens.map tokenRecord, (f text).sents,
        (f text).ents⟩ ∧
    ∀ i (hi : i < (f text).tokens.length),
      ((f text).tokens.map tokenRecord)[i]? = some
        { token := (f text).tokens[i].text
          pos := (f text).tokens[i].pos
          dep := (f text).tokens[i].dep
          head := (f text).tokens[i].headText
          head_pos := (f text).tokens[i].headPos
          lemma_ := (f text).tokens[i].lemma_
          is_punct := (f text).tokens[i].isPunct
          is_space := (f text).tokens[i].isSpace } := by
  constructor
  · unfold parse_with_spacy
    rw [h]
  · intro i hi
    simp [List.getElem?_eq_getElem hi, tokenRecord]

/-- Witness for C2 at a concrete parser and text. -/
theorem parse_with_spacy_mirrors_witness :
    parse_with_spacy exParser "The fox jumps." =
      .ok ⟨"spaCy", [tokenRecord exToken], ["The fox jumps."], []⟩ ∧
    ([tokenRecord exToken] :)[0]? =
      some ⟨"fox", "NOUN", "nsubj", "jumps", "VERB", "fox", false, false⟩ :=
  ⟨(parse_with_spacy_mirrors exParser exNlp "The fox jumps." rfl).1,
   (parse_with_spacy_mirrors exParser exNlp "The fox jumps." rfl).2 0
     (by decide)⟩

/-- C5: when the transformer pipeline is not loaded,
`parse_with_transformers` returns the `{"error": "Transformer model not
loaded"}` dict, while `parse_with_spacy` on the same parser still returns its
full result whenever the spaCy model is loaded. -/
theorem transformer_optional (p : DependencyParser) (text : String)
    (h : p.transformer_pipeline = none) :
    parse_with_transformers p text = .error "Transformer model not loaded" ∧
    ∀ f, p.nlp = some f →
      parse_with_spacy p text =
        .ok ⟨"spaCy", (f text).tokens.map tokenRecord, (f text).sents,
          (f text).ents⟩ := by
  constructor
  · unfold parse_with_transformers
    rw [h]
  · intro f hf
    unfold parse_with_spacy
    rw [hf]

/-- Witness for C5 at a concrete parser. -/
theorem transformer_optional_witness :
    parse_with_transformers exParser "hi" =
      .error "Transformer model not loaded" ∧
    parse_with_spacy exParser "hi" =
      .ok ⟨"spaCy", [tokenRecord exToken], ["The fox jumps."], []⟩ :=
  ⟨(transformer_optional exParser "hi" rfl).1,
   (transformer_optional exParser "hi" rfl).2 exNlp rfl⟩

/-- C8: the two parse methods are total at their interface: each returns
either a result dict (carrying its `'model'` field) or an `'error'` dict;
`parse_with_spacy` errors exactly when its model is absent, and
`parse_with_transformers` additionally wraps any pipeline exception in an
`'error'` dict. -/
theorem parse_methods_return_result_or_error (p : DependencyParser)
    (text : String) :
    ((p.nlp = none ∧
        parse_with_spacy p text = .error "spaCy model not loaded") ∨
      (∃ r, parse_with_spacy p text = .ok r ∧ r.model = "spaCy")) ∧
    ((p.transformer_pipeline = none ∧
        parse_with_transformers p text =
          .error "Transformer model not loaded") ∨
      (∃ e, parse_with_transformers p text =
        .error ("Transformer parsing failed: " ++ e)) ∨
      (∃ r, parse_with_transformers p text = .ok r ∧
        r.model = "Transformers")) := by
  constructor
  · rcases hn : p.nlp with _ | f
    · exact Or.inl ⟨rfl, by unfold parse_with_spacy; rw [hn]⟩
    · refine Or.inr ⟨_, by unfold parse_with_spacy; rw [hn], rfl⟩
  · rcases htp : p.transformer_pipeline with _ | tp
    · exact Or.inl ⟨rfl, by unfold parse_with_transformers; rw [htp]⟩
    · rcases hres : tp text with e | results
      · exact Or.inr (Or.inl ⟨e, by
          unfold parse_with_transformers
          rw [htp]; dsimp only; rw [hres]⟩)
      · exact Or.inr (Or.inr ⟨_, by
          unfold parse_with_transformers
          rw [htp]; dsimp only; rw [hres], rfl⟩)

instance : IsTotal (String × Nat) countDesc :=
  ⟨fun a b => Nat.le_total b.2 a.2⟩

instance : IsTrans (String × Nat) countDesc :=
  ⟨fun _ _ _ h1 h2 => Nat.le_trans h2 h1⟩

lemma groupCountDesc_sorted (vals : List String) :
    List.Sorted countDesc (groupCountDesc vals) :=
  List.Pairwise.sublist (List.take_sublist _ _)
    (List.sorted_insertionSort countDesc _)

lemma groupCountDesc_counts (vals : List String) (pr : String × Nat)
    (h : pr ∈ groupCountDesc vals) : pr.2 = vals.count pr.1 := by
  have h1 : pr ∈ List.insertionSort countDesc
      (vals.dedup.map fun v => (v, vals.count v)) :=
    List.mem_of_mem_take h
  have h2 : pr ∈ vals.dedup.map (fun v => (v, vals.count v)) :=
    (List.perm_insertionSort _ _).mem_iff.mp h1
  obtain ⟨v, _, rfl⟩ := List.mem_map.mp h2
  rfl

/-- C7: `get_statistics` always issues the same four fixed SQL queries and
returns the total sentence count, the total dependency-row count, and at most
10 dependency labels and at most 10 POS tags, each with its occurrence count,
ordered by descending count. -/
theorem get_statistics_fixed (db : DB) :
    (get_statistics db).2 = statisticsQueries ∧
    (get_statistics db).1.sentence_count = db.sentences.length ∧
    (get_statistics db).1.dependency_count = db.dependencies.length ∧
    (get_statistics db).1.common_dependencies.length ≤ 10 ∧
    (get_statistics db).1.common_pos_tags.length ≤ 10 ∧
    List.Sorted countDesc (get_statistics db).1.common_dependencies ∧
    List.Sorted countDesc (get_statistics db).1.common_pos_tags ∧
    (∀ pr ∈ (get_statistics db).1.common_dependencies,
      pr.2 = (db.dependencies.map (·.dependency_label)).count pr.1) ∧
    (∀ pr ∈ (get_statistics db).1.common_pos_tags,
      pr.2 = (db.dependencies.map (·.token_pos)).count pr.1) := by
  refine ⟨rfl, rfl, rfl, ?_, ?_, ?_, ?_, ?_, ?_⟩
  · exact List.length_take_le _ _
  · exact List.length_take_le _ _
  · exact groupCountDesc_sorted _
  · exact groupCountDesc_sorted _
  · exact fun pr h => groupCountDesc_counts _ pr h
  · exact fun pr h => groupCountDesc_counts _ pr h

/-- Characterization of the edge list built by `create_visualization`: an
edge is produced exactly for the enumerated records whose head text is found
(at the first matching index) among the records' token texts. -/
lemma mem_visEdges_iff (ds : List VisDep) (e : VisEdge) :
    e ∈ ds.enum.filterMap (fun p => visEdge ds p.1 p.2) ↔
      ∃ i, ∃ hi : i < ds.length,
        e.toIdx = i ∧ e.label = ds[i].dep ∧
        ds.findIdx? (fun d2 => d2.token == ds[i].head) = some e.fromIdx := by
  rw [List.mem_filterMap]
  constructor
  · rintro ⟨⟨i, d⟩, hp, hv⟩
    have hget : ds[i]? = some d := List.mk_mem_enum_iff_getElem?.mp hp
    obtain ⟨hi, hd⟩ := List.getElem?_eq_some_iff.mp hget
    subst hd
    unfold visEdge at hv
    rcases hf : ds.findIdx? (fun d2 => d2.token == ds[i].head) with _ | j
    · rw [hf] at hv
      exact absurd hv (by simp)
    · rw [hf] at hv
      obtain rfl := Option.some_inj.mp hv
      exact ⟨i, hi, rfl, rfl, hf⟩
  · rintro ⟨i, hi, ht, hl, hf⟩
    obtain ⟨ef, et, el⟩ := e
    dsimp at ht hl hf
    subst ht
    subst hl
    refine ⟨(et, ds[et]), List.mk_mem_enum_iff_getElem?.mpr
      (List.getElem?_eq_getElem hi), ?_⟩
    unfold visEdge
    rw [hf]

/-- C10: `create_visualization` on a non-empty record list returns the graph
with one node per record (node id = list index); each edge points from the
earliest record whose token equals the target record's head to the target
record's own index, labelled with the target's dependency; records with no
matching head produce no edge, every edge's endpoints are valid node indices,
and each record gets at most one incoming edge.  On the empty list it returns
the fixed message string. -/
theorem create_visualization_graph (ds : List VisDep) :
    (ds = [] →
      create_visualization ds = .message "No dependencies to visualize") ∧
    (ds ≠ [] →
      create_visualization ds =
        .graph (ds.enum.map (fun p => visNode p.1 p.2))
          (ds.enum.filterMap (fun p => visEdge ds p.1 p.2)) ∧
      (ds.enum.map (fun p => visNode p.1 p.2)).length = ds.length ∧
      (∀ i (hi : i < ds.length),
        (ds.enum.map (fun p => visNode p.1 p.2))[i]? =
          some (visNode i ds[i])) ∧
      (∀ e ∈ ds.enum.filterMap (fun p => visEdge ds p.1 p.2),
        ∃ (ht : e.toIdx < ds.length) (hf : e.fromIdx < ds.length),
        ds[e.fromIdx].token = ds[e.toIdx].head ∧
        (∀ k (hk : k < e.fromIdx), ds[k].token ≠ ds[e.toIdx].head) ∧
        e.label = ds[e.toIdx].dep) ∧
      (∀ i (hi : i < ds.length),
        (∃ j, ∃ hj : j < ds.length, ds[j].token = ds[i].head) →
        ∃ e ∈ ds.enum.filterMap (fun p => visEdge ds p.1 p.2),
          e.toIdx = i) ∧
      (∀ e1 ∈ ds.enum.filterMap (fun p => visEdge ds p.1 p.2),
       ∀ e2 ∈ ds.enum.filterMap (fun p => visEdge ds p.1 p.2),
        e1.toIdx = e2.toIdx → e1 = e2)) := by
  constructor
  · rintro rfl
    rfl
  · intro h
    have hne : ¬(ds.isEmpty = true) := by
      simpa [List.isEmpty_iff] using h
    refine ⟨?_, ?_, ?_, ?_, ?_, ?_⟩
    · unfold create_visualization
      rw [if_neg hne]
    · simp [List.enum_length]
    · intro i hi
      simp [List.getElem?_enum, List.getElem?_eq_getElem hi]
    · intro e he
      rw [mem_visEdges_iff] at he
      obtain ⟨i, hi, ht, hl, hf⟩ := he
      obtain ⟨hflt, hp, hmin⟩ := List.findIdx?_eq_some_iff_getElem.mp hf
      subst ht
      refine ⟨hi, hflt, by simpa using hp, ?_, hl⟩
      intro k hk
      simpa using hmin k hk
    · intro i hi hmatch
      obtain ⟨j, hj, hjm⟩ := hmatch
      have hex : ∃ x, x ∈ ds ∧ (x.token == ds[i].head) = true :=
        ⟨ds[j], List.getElem_mem hj, by simpa using hjm⟩
      have hfind := List.findIdx?_eq_some_of_exists hex
      refine ⟨⟨ds.findIdx (fun d2 => d2.token == ds[i].head), i, ds[i].dep⟩,
        ?_, rfl⟩
      rw [mem_visEdges_iff]
      exact ⟨i, hi, rfl, rfl, hfind⟩
    · intro e1 he1 e2 he2 heq
      rw [mem_visEdges_iff] at he1 he2
      obtain ⟨i1, hi1, ht1, hl1, hf1⟩ := he1
      obtain ⟨i2, hi2, ht2, hl2, hf2⟩ := he2
      obtain rfl : i1 = i2 := by rw [← ht1, ← ht2, heq]
      obtain ⟨f1, t1, l1⟩ := e1
      obtain ⟨f2, t2, l2⟩ := e2
      dsimp at ht1 ht2 hl1 hl2 hf1 hf2 heq
      subst ht1
      subst ht2
      subst hl1
      subst hl2
      rw [hf1] at hf2
      obtain rfl := Option.some_inj.mp hf2
      rfl

/-- Witness for C10 at the test suite's sample input: two records where the
first record's head is the second record's token give two nodes and the one
edge from node 1 to node 0. -/
theorem create_visualization_graph_witness :
    create_visualization
        [⟨"The", "DET", "det", "fox"⟩, ⟨"fox", "NOUN", "nsubj", "jumps"⟩] =
      .graph [⟨0, "The\n(DET)", "DET", "det"⟩,
          ⟨1, "fox\n(NOUN)", "NOUN", "nsubj"⟩]
        [⟨1, 0, "det"⟩] ∧
    create_visualization ([] : List VisDep) =
      .message "No dependencies to visualize" := by
  have h := create_visualization_graph
    [⟨"The", "DET", "det", "fox"⟩, ⟨"fox", "NOUN", "nsubj", "jumps"⟩]
  have h2 := create_visualization_graph ([] : List VisDep)
  refine ⟨?_, h2.1 rfl⟩
  rw [(h.2 (by decide)).1]
  decide

/-- Witness for C3 at concrete inputs. -/
theorem init_database_two_tables_witness :
    (init_database freshConn).db.tables = ["sentences", "dependencies"] ∧
    (save_to_database exConn "Hi" ⟨"spaCy", none⟩).1.db.tables =
      exConn.db.tables ∧
    ("sentences" ∈ freshConn.db.tables ∨ "sentences" = "sentences" ∨
      "sentences" = "dependencies") :=
  ⟨init_database_two_tables.1,
   init_database_two_tables.2.2 exConn "Hi" ⟨"spaCy", none⟩,
   init_database_two_tables.2.1 freshConn "sentences" (by decide)⟩

/-- A small concrete database to instantiate the statistics theorem. -/
def exDB : DB :=
  ⟨["sentences", "dependencies"],
   [⟨1, "The cat sat."⟩],
   [⟨1, 1, "cat", "NOUN", "nsubj", "sat", "VERB", "spaCy", none⟩,
    ⟨2, 1, "sat", "VERB", "ROOT", "sat", "VERB", "spaCy", none⟩]⟩

/-- Witness for C7 at a concrete database. -/
theorem get_statistics_fixed_witness :
    (get_statistics exDB).2 = statisticsQueries ∧
    (get_statistics exDB).1.sentence_count = 1 ∧
    ("nsubj", 1).2 = (exDB.dependencies.map (·.dependency_label)).count
      ("nsubj", 1).1 :=
  ⟨(get_statistics_fixed exDB).1,
   (get_statistics_fixed exDB).2.1,
   (get_statistics_fixed exDB).2.2.2.2.2.2.2.1 ("nsubj", 1) (by decide)⟩

/-- C6 counterexample: on a concrete record list, the repository's own
`create_visualization` constructs a node dict and an edge dict itself (node
built at 0107.py lines 215-220, edge at lines 226-230) — so the repository
does compute a visualization structure of its own, not delegated to any
third-party renderer. -/
theorem create_visualization_constructs_counterexample :
    create_visualization [⟨"fox", "NOUN", "nsubj", "fox"⟩] =
      .graph [⟨0, "fox\n(NOUN)", "NOUN", "nsubj"⟩] [⟨0, 0, "nsubj"⟩] := by
  decide

/-- C6 amended: the rendered tree shown by the app is produced by the
third-party displacy renderer (0107.py lines 333-337), but the repository
also computes a node/edge visualization structure of its own:
`create_visualization` builds one node per record and its own edge list. -/
theorem create_visualization_own_structure (ds : List VisDep) (h : ds ≠ []) :
    create_visualization ds =
      .graph (ds.enum.map (fun p => visNode p.1 p.2))
        (ds.enum.filterMap (fun p => visEdge ds p.1 p.2)) ∧
    (ds.enum.map (fun p => visNode p.1 p.2)).length = ds.length := by
  have hne : ¬(ds.isEmpty = true) := by
    simpa [List.isEmpty_iff] using h
  constructor
  · unfold create_visualization
    rw [if_neg hne]
  · simp [List.enum_length]

/-- Witness for C6's amended theorem at a concrete record list. -/
theorem create_visualization_own_structure_witness :
    create_visualization [⟨"fox", "NOUN", "nsubj", "fox"⟩] =
      .graph
        (([⟨"fox", "NOUN", "nsubj", "fox"⟩] : List VisDep).enum.map
          (fun p => visNode p.1 p.2))
        (([⟨"fox", "NOUN", "nsubj", "fox"⟩] : List VisDep).enum.filterMap
          (fun p => visEdge [⟨"fox", "NOUN", "nsubj", "fox"⟩] p.1 p.2)) :=
  (create_visualization_own_structure [⟨"fox", "NOUN", "nsubj", "fox"⟩]
    (by decide)).1

end DepParse
